import Mathlib

/-!
Verification of the zeek-benchmarker request-admission pipeline
(ci-based/zeek_benchmarker/app.py) and of the result-extraction fixture
(ci-based/tests/test_integration.py) against its natural-language
specification.

The Python code is shallowly embedded: strings are Lean strings (ASCII
fragment of Python str semantics), machine integers are Nat/Int, Python
exceptions become an explicit error type carried in Except, the two clock
reads (datetime.utcnow and time.time) and the git check-ref-format
subprocess become explicit parameters.
-/

/-! ## Character and decimal-string primitives -/

/-- ASCII decimal digit test, the fragment of Python str.isdigit used here. -/
def isDigitChar (c : Char) : Bool := 48 ≤ c.toNat && c.toNat ≤ 57

/-- The ASCII character of a decimal digit. -/
def digitChar (d : Nat) : Char := Char.ofNat (48 + d)

/-- Value of a big-endian list of decimal digit characters. -/
def deval (cs : List Char) : Nat := cs.foldl (fun a c => 10 * a + (c.toNat - 48)) 0

/-- Fuelled decimal printer for naturals; digits in print order, empty for 0. -/
def natReprAux : Nat → Nat → List Char
  | 0, _ => []
  | _ + 1, 0 => []
  | fuel + 1, n + 1 => natReprAux fuel ((n + 1) / 10) ++ [digitChar ((n + 1) % 10)]

/-- Decimal representation of a natural, as Python int formatting prints it. -/
def natRepr (n : Nat) : String := if n = 0 then "0" else ⟨natReprAux n n⟩

/-- Decimal representation of an integer, as a Python f-string d-format prints it. -/
def intRepr : Int → String
  | .ofNat n => natRepr n
  | .negSucc n => "-" ++ natRepr (n + 1)

/-- Split a character list at every occurrence of a separator. -/
def splitOnChar (sep : Char) : List Char → List (List Char)
  | [] => [[]]
  | c :: cs =>
    match splitOnChar sep cs with
    | [] => [[]]
    | g :: gs => if c = sep then [] :: g :: gs else (c :: g) :: gs

/-- Python str.startswith on Lean strings. -/
def strStartsWith (s p : String) : Bool := p.data.isPrefixOf s.data

/-- Python str.isalnum on the modelled fragment: ASCII digits and letters,
the full Latin-1 block as Python classifies it (the ordinal indicators and
micro sign 170, 178, 179, 181, 185, 186, the vulgar fractions 188, 189, 190,
and the letters 192 to 255 except the multiplication sign 215 and division
sign 247), plus 304, the Latin capital I with dot above. Python also accepts
alphanumerics from further scripts; code points outside the fragment are
conservatively classified non-alphanumeric here, and the theorems below
assert only properties of the sanitized branch that hold of the full Unicode
classification as well. -/
def pyIsAlnum (c : Char) : Bool :=
  (48 ≤ c.toNat && c.toNat ≤ 57) || (65 ≤ c.toNat && c.toNat ≤ 90) ||
    (97 ≤ c.toNat && c.toNat ≤ 122) ||
    (c.toNat = 170 || c.toNat = 178 || c.toNat = 179 || c.toNat = 181 ||
      c.toNat = 185 || c.toNat = 186 || c.toNat = 188 || c.toNat = 189 || c.toNat = 190) ||
    (192 ≤ c.toNat && c.toNat ≤ 246 && c.toNat ≠ 215) ||
    (248 ≤ c.toNat && c.toNat ≤ 255) || c.toNat = 304

/-- An uppercase letter of the modelled fragment: ASCII 65 to 90, Latin-1 192
to 222 without the multiplication sign 215, and the dotted capital I 304. -/
def isUpperInFragment (c : Char) : Bool :=
  (65 ≤ c.toNat && c.toNat ≤ 90) ||
    (192 ≤ c.toNat && c.toNat ≤ 222 && c.toNat ≠ 215) || c.toNat = 304

/-- Python str.lower on one character of the fragment, as a character list:
ASCII and Latin-1 uppercase letters map down by 32, and 304 has the special
full lowering to i followed by the combining dot above 775 (so lowering is
one-to-many, as in Python); every other character is returned unchanged. -/
def pyCharLower (c : Char) : List Char :=
  if 65 ≤ c.toNat && c.toNat ≤ 90 then [Char.ofNat (c.toNat + 32)]
  else if 192 ≤ c.toNat && c.toNat ≤ 222 && c.toNat ≠ 215 then [Char.ofNat (c.toNat + 32)]
  else if c.toNat = 304 then [Char.ofNat 105, Char.ofNat 775]
  else [c]

/-- Python str.lower on a whole string of the fragment. -/
def pyStrLower (s : String) : String := ⟨(s.data.map pyCharLower).flatten⟩

/-- ASCII whitespace stripped by Python int() before parsing. -/
def isSpaceChar (c : Char) : Bool :=
  c.toNat = 32 || c.toNat = 9 || c.toNat = 10 || c.toNat = 13 || c.toNat = 11 || c.toNat = 12

/-- Strip leading and trailing whitespace from a character list. -/
def stripChars (cs : List Char) : List Char :=
  ((cs.dropWhile isSpaceChar).reverse.dropWhile isSpaceChar).reverse

/-! ## Python exceptions raised by the admission pipeline

The code raises werkzeug BadRequest and Forbidden; an int() conversion of a
non-numeric string raises an uncaught ValueError (carrying the offending
literal). -/

inductive Err where
  | badRequest (msg : String)
  | forbidden (msg : String)
  | valueError (arg : String)
deriving DecidableEq, Repr

deriving instance DecidableEq for Except

/-- Digits of a Python int literal: nonempty and all ASCII decimal. -/
def pyIntDigits (cs : List Char) : Option Nat :=
  if !cs.isEmpty && cs.all isDigitChar then some (deval cs) else none

/-- Python int() on a string: strip whitespace, optional sign, decimal digits;
anything else raises ValueError. (Underscore digit grouping and non-ASCII
decimals are outside the model.) -/
def pyInt (s : String) : Except Err Int :=
  match stripChars s.data with
  | '-' :: ds =>
    match pyIntDigits ds with
    | some n => .ok (-(n : Int))
    | none => .error (.valueError s)
  | '+' :: ds =>
    match pyIntDigits ds with
    | some n => .ok (n : Int)
    | none => .error (.valueError s)
  | ds =>
    match pyIntDigits ds with
    | some n => .ok (n : Int)
    | none => .error (.valueError s)

/-- Python float() on an unsigned decimal literal, as an exact rational;
None models the non-numeric case. Exponent and special forms are outside
the model (the benchmark marker fields use plain decimals). -/
def parseUnsignedFloat (cs : List Char) : Option ℚ :=
  match splitOnChar '.' cs with
  | [ip] =>
    if !ip.isEmpty && ip.all isDigitChar then some ((deval ip : ℚ)) else none
  | [ip, fp] =>
    if (!ip.isEmpty || !fp.isEmpty) && ip.all isDigitChar && fp.all isDigitChar then
      some ((deval ip : ℚ) + (deval fp : ℚ) / (10 : ℚ) ^ fp.length)
    else none
  | _ => none

/-- Python float() with optional sign and whitespace stripping. -/
def pyFloat (s : String) : Option ℚ :=
  match stripChars s.data with
  | '-' :: cs => (parseUnsignedFloat cs).map (fun q => -q)
  | '+' :: cs => parseUnsignedFloat cs
  | cs => parseUnsignedFloat cs

/-! ## Byte strings and hex digests -/

/-- UTF-8 encoding of one character, as Python str.encode produces it. -/
def utf8EncodeChar (c : Char) : List Nat :=
  let n := c.toNat
  if n < 128 then [n]
  else if n < 2048 then [192 + n / 64, 128 + n % 64]
  else if n < 65536 then [224 + n / 4096, 128 + n / 64 % 64, 128 + n % 64]
  else [240 + n / 262144, 128 + n / 4096 % 64, 128 + n / 64 % 64, 128 + n % 64]

/-- Python str.encode: the UTF-8 bytes of a string, each byte a Nat below 256. -/
def strBytes (s : String) : List Nat := (s.data.map utf8EncodeChar).flatten

/-- Lowercase hexadecimal digit character. -/
def hexDigitChar (d : Nat) : Char :=
  if d < 10 then Char.ofNat (48 + d) else Char.ofNat (87 + d)

/-- Lowercase hex string of a byte list, as hashlib hexdigest renders it. -/
def hexdigest (bs : List Nat) : String :=
  ⟨(bs.map (fun b => [hexDigitChar (b / 16), hexDigitChar (b % 16)])).flatten⟩

/-! ## SHA-256 (FIPS 180-4) over byte lists, words as Nat mod 2^32 -/

/-- Truncation to a 32-bit word. -/
def w32 (x : Nat) : Nat := x % 4294967296

/-- Right rotation of a 32-bit word by n bits. -/
def rotr32 (n x : Nat) : Nat := w32 (x / 2 ^ n + x % 2 ^ n * 2 ^ (32 - n))

/-- Logical right shift of a 32-bit word. -/
def shr32 (n x : Nat) : Nat := x / 2 ^ n

/-- Bitwise complement of a 32-bit word. -/
def not32 (x : Nat) : Nat := x ^^^ 4294967295

/-- SHA-256 choose function. -/
def shaCh (x y z : Nat) : Nat := (x &&& y) ^^^ (not32 x &&& z)

/-- SHA-256 majority function. -/
def shaMaj (x y z : Nat) : Nat := (x &&& y) ^^^ (x &&& z) ^^^ (y &&& z)

/-- SHA-256 big sigma 0. -/
def bsig0 (x : Nat) : Nat := rotr32 2 x ^^^ rotr32 13 x ^^^ rotr32 22 x

/-- SHA-256 big sigma 1. -/
def bsig1 (x : Nat) : Nat := rotr32 6 x ^^^ rotr32 11 x ^^^ rotr32 25 x

/-- SHA-256 small sigma 0. -/
def ssig0 (x : Nat) : Nat := rotr32 7 x ^^^ rotr32 18 x ^^^ shr32 3 x

/-- SHA-256 small sigma 1. -/
def ssig1 (x : Nat) : Nat := rotr32 17 x ^^^ rotr32 19 x ^^^ shr32 10 x

/-- The 64 SHA-256 round constants. -/
def sha256K : List Nat :=
  [1116352408, 1899447441, 3049323471, 3921009573,
   961987163, 1508970993, 2453635748, 2870763221,
   3624381080, 310598401, 607225278, 1426881987,
   1925078388, 2162078206, 2614888103, 3248222580,
   3835390401, 4022224774, 264347078, 604807628,
   770255983, 1249150122, 1555081692, 1996064986,
   2554220882, 2821834349, 2952996808, 3210313671,
   3336571891, 3584528711, 113926993, 338241895,
   666307205, 773529912, 1294757372, 1396182291,
   1695183700, 1986661051, 2177026350, 2456956037,
   2730485921, 2820302411, 3259730800, 3345764771,
   3516065817, 3600352804, 4094571909, 275423344,
   430227734, 506948616, 659060556, 883997877,
   958139571, 1322822218, 1537002063, 1747873779,
   1955562222, 2024104815, 2227730452, 2361852424,
   2428436474, 2756734187, 3204031479, 3329325298]

/-- The eight SHA-256 initial hash values. -/
def sha256H0 : List Nat :=
  [1779033703, 3144134277, 1013904242, 2773480762,
   1359893119, 2600822924, 528734635, 1541459225]

/-- Big-endian word value of a byte list. -/
def beWord (bs : List Nat) : Nat := bs.foldl (fun a b => 256 * a + b) 0

/-- Big-endian 4-byte serialization of a 32-bit word. -/
def be4 (n : Nat) : List Nat := [n / 16777216 % 256, n / 65536 % 256, n / 256 % 256, n % 256]

/-- Big-endian 8-byte serialization of a 64-bit length field. -/
def be8 (n : Nat) : List Nat := (List.range 8).map (fun i => n / 256 ^ (7 - i) % 256)

/-- Split a list into consecutive chunks of size k. -/
def chunkList (k : Nat) (l : List α) : List (List α) :=
  (List.range ((l.length + k - 1) / k)).map (fun i => (l.drop (k * i)).take k)

/-- SHA-256 padding: a 0x80 byte, zeros to 56 mod 64, and the 64-bit big-endian
bit length. -/
def sha256Pad (msg : List Nat) : List Nat :=
  msg ++ [128] ++ List.replicate ((120 - (msg.length + 1) % 64) % 64) 0 ++ be8 (8 * msg.length)

/-- Extend the 16 message-schedule words by the given number of steps. -/
def sha256Extend : Nat → List Nat → List Nat
  | 0, ws => ws
  | t + 1, ws =>
    let k := ws.length
    sha256Extend t
      (ws ++ [w32 (ssig1 (ws.getD (k - 2) 0) + ws.getD (k - 7) 0 +
        ssig0 (ws.getD (k - 15) 0) + ws.getD (k - 16) 0)])

/-- One SHA-256 round on the eight-word state, fed the sum of the round
constant and schedule word. -/
def sha256Round (st : List Nat) (kw : Nat) : List Nat :=
  match st with
  | [a, b, c, d, e, f, g, h] =>
    let t1 := w32 (h + bsig1 e + shaCh e f g + kw)
    let t2 := w32 (bsig0 a + shaMaj a b c)
    [w32 (t1 + t2), a, b, c, w32 (d + t1), e, f, g]
  | st => st

/-- SHA-256 compression of one 64-byte block into the running state. -/
def sha256Compress (st : List Nat) (block : List Nat) : List Nat :=
  let ws := sha256Extend 48 ((chunkList 4 block).map beWord)
  let final := (List.zipWith (fun k w => w32 (k + w)) sha256K ws).foldl sha256Round st
  List.zipWith (fun a b => w32 (a + b)) st final

/-- SHA-256 digest (32 bytes) of a byte list. -/
def sha256 (msg : List Nat) : List Nat :=
  (((chunkList 64 (sha256Pad msg)).foldl sha256Compress sha256H0).map be4).flatten

/-- Zero-pad (or hash first, when longer than a block) a key to 64 bytes. -/
def hmacBlockKey (key : List Nat) : List Nat :=
  let k := if 64 < key.length then sha256 key else key
  k ++ List.replicate (64 - k.length) 0

/-- HMAC-SHA256 (FIPS 198-1) of a message under a key, as hmac.new with
digestmod sha256 computes it. -/
def hmacSha256 (key msg : List Nat) : List Nat :=
  let k0 := hmacBlockKey key
  sha256 ((k0.map (fun b => b ^^^ 92)) ++ sha256 ((k0.map (fun b => b ^^^ 54)) ++ msg))

/-! ## The request-admission pipeline of zeek_benchmarker/app.py -/

/-- Flask app configuration consumed by the admission pipeline. -/
structure Config where
  allowed_build_urls : List String
  hmac_key : String
deriving DecidableEq, Repr

/-- The projection of an inbound Flask request onto the headers, query
arguments and attributes the admission pipeline reads; a None field is an
absent header or argument. -/
structure Request where
  path : String
  remote_addr : String
  zeekHmac : Option String
  zeekHmacTimestamp : Option String
  branch : Option String
  build : Option String
  build_hash : Option String
  commit : Option String
deriving DecidableEq, Repr

/-- The req_vals dictionary assembled by parse_request. -/
structure ReqVals where
  build_hash : String
  original_branch : String
  normalized_branch : String
  build_url : String
  remote : Bool
  commit : String
deriving DecidableEq, Repr

/-- Embeds is_allowed_build_url_prefix: is some configured allowed URL a
prefix of the given url. -/
def is_allowed_build_url (cfg : Config) (url : String) : Bool :=
  cfg.allowed_build_urls.any (fun allowed => strStartsWith url allowed)

/-- Embeds verify_hmac: recompute the keyed digest over
path-timestamp-build_hash newline and compare with the request digest
(hmac.compare_digest is constant-time equality of the two hex strings;
its timing behaviour is not modelled). -/
def verify_hmac (cfg : Config) (request_path : String) (timestamp : Int)
    (request_digest : String) (build_hash : String) : Bool :=
  let hmac_msg := strBytes (request_path ++ "-" ++ intRepr timestamp ++ "-" ++ build_hash ++ "\n")
  let local_digest := hexdigest (hmacSha256 (strBytes cfg.hmac_key) hmac_msg)
  local_digest == request_digest

/-- The int() applied to the Zeek-HMAC-Timestamp header: an absent header
defaults to the integer 0, a present header is parsed by Python int() and a
non-numeric value raises ValueError. -/
def intOfTimestampHeader (h : Option String) : Except Err Int :=
  match h with
  | none => .ok 0
  | some s => pyInt s

/-- Embeds check_hmac_request. The parameter now is the value of
datetime.utcnow() in UTC epoch seconds (rational, since datetime carries
sub-second precision); the header timestamp t denotes utcfromtimestamp t, so
the timedelta utc - ts is now - t seconds and the 15-minute bound is 900. -/
def check_hmac_request (cfg : Config) (now : ℚ) (req : Request) : Except Err Unit :=
  match req.zeekHmac with
  | none => .error (.forbidden "HMAC header missing from request")
  | some hmac_header =>
    if hmac_header = "" then .error (.forbidden "HMAC header missing from request")
    else
      (intOfTimestampHeader req.zeekHmacTimestamp).bind fun hmac_timestamp =>
        if hmac_timestamp = 0 then .error (.forbidden "HMAC timestamp missing from request")
        else if (900 : ℚ) < now - (hmac_timestamp : ℚ) then
          .error (.forbidden "HMAC timestamp is outside of the valid range")
        else
          let build_hash := req.build_hash.getD ""
          if build_hash = "" then .error (.badRequest "Build hash argument required")
          else if verify_hmac cfg req.path hmac_timestamp hmac_header build_hash then .ok ()
          else .error (.forbidden "HMAC validation failed")

/-- Embeds the branch normalization of parse_request: drop every character
that is not alphanumeric, then lowercase. -/
def sanitizeBranch (branch : String) : String :=
  pyStrLower ⟨branch.data.filter pyIsAlnum⟩

/-- Embeds parse_request. The git check-ref-format subprocess is the
injected predicate gitOk (true models exit status 0); now is
datetime.utcnow() in epoch seconds and epochNow is int(time.time()). -/
def parse_request (cfg : Config) (gitOk : String → Bool) (now : ℚ) (epochNow : Int)
    (req : Request) : Except Err ReqVals :=
  let branch := req.branch.getD ""
  if branch = "" then .error (.badRequest "Branch argument required")
  else
    let build_url := req.build.getD ""
    if build_url = "" then .error (.badRequest "Build argument required")
    else
      let build_hash := req.build_hash.getD ""
      (if is_allowed_build_url cfg build_url then
          (check_hmac_request cfg now req).map (fun _ => true)
        else if strStartsWith build_url "file://" && req.remote_addr == "127.0.0.1" then
          .ok false
        else
          .error (.badRequest "Invalid build URL")).bind fun remote_build =>
      if branch.data.contains ';' then .error (.badRequest "Invalid branch name")
      else if !gitOk branch then .error (.badRequest "Invalid branch name")
      else
        (intOfTimestampHeader req.zeekHmacTimestamp).bind fun hmac_timestamp =>
          let original_branch := sanitizeBranch branch
          let normalized_branch :=
            if remote_build then
              original_branch ++ "-" ++ intRepr hmac_timestamp ++ "-" ++ intRepr epochNow
            else
              original_branch ++ "-local-" ++ intRepr epochNow
          .ok { build_hash := build_hash, original_branch := original_branch,
                normalized_branch := normalized_branch, build_url := build_url,
                remote := remote_build, commit := req.commit.getD "" }

/-! ## The result-extraction model (zeek_benchmarker/tasks.py) -/

/-- Modelled from the spec: zeek_benchmarker.tasks.ZeekTest, the named test
definition with its expected run count; the module holding it is absent from
the sources, only its test suite is present. -/
structure ZeekTest where
  test_id : String
  runs : Nat
deriving DecidableEq, Repr

/-- Modelled from the spec: zeek_benchmarker.tasks.ZeekTestResult, a typed
timing record; per the spec a field that is empty or non-numeric on the
marker line is absent rather than a parse failure, hence the Option fields. -/
structure ZeekTestResult where
  run_index : Nat
  wall_time : Option ℚ
  max_memory : Option ℚ
  user_time : Option ℚ
  system_time : Option ℚ
deriving DecidableEq, Repr

/-- The marker tag that opens a benchmark timing line. -/
def benchmarkMarker : List Char := "BENCHMARK_TIMING=".data

/-- Lines of the raw output that carry the timing marker. -/
def markerLines (output : String) : List (List Char) :=
  (splitOnChar '\n' output.data).filter (fun l => benchmarkMarker.isPrefixOf l)

/-- Python float() on a field given as a character list. -/
def parseFloatChars (cs : List Char) : Option ℚ := pyFloat ⟨cs⟩

/-- Modelled from the spec: the semicolon-delimited numeric fields after the
marker, in the positional order fixed by the reference fixture of
tests/test_integration.py (third field user_time, fourth field system_time;
the first two are the wall clock and the memory maximum). -/
def resultOfMarkerLine (run_index : Nat) (line : List Char) : ZeekTestResult :=
  let fields := splitOnChar ';' (line.drop benchmarkMarker.length)
  { run_index := run_index
    wall_time := parseFloatChars (fields.getD 0 [])
    max_memory := parseFloatChars (fields.getD 1 [])
    user_time := parseFloatChars (fields.getD 2 [])
    system_time := parseFloatChars (fields.getD 3 []) }

/-- Modelled from the spec: zeek_benchmarker.tasks.ZeekTestResult.parse_from,
which extracts the timing record for one run with the given index from the
raw output, ignoring lines without the marker; the module holding it is
absent from the sources, so this follows section 4.2 of the spec and the
fixture of tests/test_integration.py. -/
def ZeekTestResult.parse_from (run_index : Nat) (output : String) : Option ZeekTestResult :=
  match markerLines output with
  | [] => none
  | line :: _ => some (resultOfMarkerLine run_index line)

/-- Modelled from the spec: the ordered sequence of results, one per
discovered marker line, run_index assigned as the 1-based position of
discovery (spec section 4.2). -/
def parseResults (output : String) : List ZeekTestResult :=
  (markerLines output).enum.map (fun p => resultOfMarkerLine (p.1 + 1) p.2)

/-! ## Discriminators and concrete instances -/

/-- Is a rejection an access-denied (werkzeug Forbidden) one; the spec's
AuthMissing, AuthExpired and AuthInvalid rejections are of this shape, its
BadRequest rejections are not. -/
def Err.isForbidden : Err → Bool
  | .forbidden _ => true
  | _ => false

/-- A concrete configuration with one allow-listed build URL prefix. -/
def cfg0 : Config :=
  { allowed_build_urls := ["https://build.example.com/"], hmac_key := "benchmarker-key" }

/-- A git check-ref-format oracle that accepts every branch name. -/
def gitAll : String → Bool := fun _ => true

/-- A concrete remote request against cfg0: allow-listed build URL, signature
and timestamp headers and a content hash present. -/
def baseReq : Request :=
  { path := "/zeek", remote_addr := "203.0.113.7", zeekHmac := some "sig",
    zeekHmacTimestamp := some "1000", branch := some "topic",
    build := some "https://build.example.com/zeek.tar.gz", build_hash := some "hash",
    commit := none }

/-- The remote request with its timestamp 16 minutes in the future of the
clock value 1000 used alongside it. -/
def reqFuture : Request := { baseReq with zeekHmacTimestamp := some "1960" }

/-- The remote request without the content-hash query argument. -/
def reqNoHash : Request := { baseReq with build_hash := none, zeekHmacTimestamp := some "1" }

/-- The remote request with a non-numeric timestamp header. -/
def reqBadTs : Request := { baseReq with zeekHmacTimestamp := some "friday" }

/-- The remote request with a semicolon branch and no signature header. -/
def reqSemiRemote : Request := { baseReq with branch := some "a;b", zeekHmac := none }

/-- A local (loopback file) request with a semicolon branch. -/
def reqSemiLocal : Request :=
  { baseReq with
    branch := some "a;b", build := some "file:///tmp/zeek.tar.gz",
    remote_addr := "127.0.0.1", zeekHmac := none, zeekHmacTimestamp := none }

/-- A local request for branch abc. -/
def reqLocalA : Request :=
  { baseReq with
    branch := some "abc", build := some "file:///tmp/zeek.tar.gz",
    remote_addr := "127.0.0.1", zeekHmac := none, zeekHmacTimestamp := none }

/-- The same local request with a different commit argument. -/
def reqLocalB : Request := { reqLocalA with commit := some "deadbeef" }

/-- A request whose build URL is neither allow-listed nor a local file. -/
def reqBadUrl : Request := { baseReq with build := some "ftp://host/zeek.tar.gz" }

/-- The req_vals produced for reqLocalA at integer epoch e. -/
def valsLocalA (e : Int) : ReqVals :=
  { build_hash := "hash", original_branch := "abc",
    normalized_branch := "abc-local-" ++ intRepr e, build_url := "file:///tmp/zeek.tar.gz",
    remote := false, commit := "" }

/-- A local request whose branch is the single character 304, the Latin
capital I with dot above; git check-ref-format accepts it, so it is
admissible through the loopback path. -/
def reqUni : Request :=
  { baseReq with
    branch := some ⟨[Char.ofNat 304]⟩, build := some "file:///tmp/zeek.tar.gz",
    remote_addr := "127.0.0.1", zeekHmac := none, zeekHmacTimestamp := none }

/-! ## Simple facts about the decimal printer -/

theorem deval_append_digit (xs : List Char) (c : Char) :
    deval (xs ++ [c]) = 10 * deval xs + (c.toNat - 48) := by
  simp [deval, List.foldl_append]

theorem toNat_digitChar : ∀ d, d < 10 → (digitChar d).toNat = 48 + d := by decide

theorem deval_natReprAux : ∀ fuel n, n ≤ fuel → deval (natReprAux fuel n) = n := by
  intro fuel
  induction fuel with
  | zero =>
    intro n hn
    interval_cases n
    simp [natReprAux, deval]
  | succ f ih =>
    intro n hn
    match n with
    | 0 => simp [natReprAux, deval]
    | m + 1 =>
      have hdiv : (m + 1) / 10 ≤ f := by
        have := Nat.div_lt_self (Nat.succ_pos m) (by omega : 1 < 10)
        omega
      rw [natReprAux, deval_append_digit, ih _ hdiv,
        toNat_digitChar _ (Nat.mod_lt _ (by omega))]
      omega

theorem deval_natRepr (n : Nat) : deval (natRepr n).data = n := by
  by_cases h : n = 0
  · subst h; decide
  · rw [natRepr, if_neg h]
    exact deval_natReprAux n n le_rfl

theorem natRepr_inj {m n : Nat} (h : natRepr m = natRepr n) : m = n := by
  have := congrArg (fun s => deval (String.data s)) h
  simpa [deval_natRepr] using this

theorem mem_natReprAux_digit :
    ∀ fuel n c, c ∈ natReprAux fuel n → 48 ≤ c.toNat ∧ c.toNat ≤ 57 := by
  intro fuel
  induction fuel with
  | zero => intro n c hc; simp [natReprAux] at hc
  | succ f ih =>
    intro n c hc
    match n with
    | 0 => simp [natReprAux] at hc
    | m + 1 =>
      rw [natReprAux] at hc
      rcases List.mem_append.1 hc with h | h
      · exact ih _ _ h
      · have hd : (m + 1) % 10 < 10 := Nat.mod_lt _ (by omega)
        have := toNat_digitChar _ hd
        simp at h
        subst h
        omega

theorem mem_natRepr_digit {n : Nat} {c : Char} (hc : c ∈ (natRepr n).data) :
    48 ≤ c.toNat ∧ c.toNat ≤ 57 := by
  by_cases h : n = 0
  · subst h
    simp [natRepr] at hc
    subst hc; decide
  · rw [natRepr, if_neg h] at hc
    exact mem_natReprAux_digit n n c hc

/-! ## Evaluation helpers for the authenticator and the gateway -/

theorem check_hmac_request_eq (cfg : Config) (now : ℚ) (req : Request) (d : String) (t : Int)
    (hd : req.zeekHmac = some d) (hne : d ≠ "")
    (ht : intOfTimestampHeader req.zeekHmacTimestamp = .ok t) :
    check_hmac_request cfg now req =
      if t = 0 then .error (.forbidden "HMAC timestamp missing from request")
      else if (900 : ℚ) < now - (t : ℚ) then
        .error (.forbidden "HMAC timestamp is outside of the valid range")
      else if req.build_hash.getD "" = "" then .error (.badRequest "Build hash argument required")
      else if verify_hmac cfg req.path t d (req.build_hash.getD "") then .ok ()
      else .error (.forbidden "HMAC validation failed") := by
  unfold check_hmac_request
  rw [hd, ht]
  simp [Except.bind, hne]

theorem check_hmac_request_ts_error (cfg : Config) (now : ℚ) (req : Request) (d : String)
    (er : Err) (hd : req.zeekHmac = some d) (hne : d ≠ "")
    (ht : intOfTimestampHeader req.zeekHmacTimestamp = .error er) :
    check_hmac_request cfg now req = .error er := by
  unfold check_hmac_request
  rw [hd, ht]
  simp [Except.bind, hne]

theorem parse_request_eq (cfg : Config) (g : String → Bool) (now : ℚ) (e : Int) (req : Request)
    (hb : req.branch.getD "" ≠ "") (hu : req.build.getD "" ≠ "") :
    parse_request cfg g now e req =
      (if is_allowed_build_url cfg (req.build.getD "") then
          (check_hmac_request cfg now req).map (fun _ => true)
        else if strStartsWith (req.build.getD "") "file://" && (req.remote_addr == "127.0.0.1") then
          .ok false
        else
          .error (.badRequest "Invalid build URL")).bind fun remote_build =>
      if (req.branch.getD "").data.contains ';' then .error (.badRequest "Invalid branch name")
      else if !g (req.branch.getD "") then .error (.badRequest "Invalid branch name")
      else
        (intOfTimestampHeader req.zeekHmacTimestamp).bind fun hmac_timestamp =>
          .ok { build_hash := req.build_hash.getD "",
                original_branch := sanitizeBranch (req.branch.getD ""),
                normalized_branch :=
                  if remote_build then
                    sanitizeBranch (req.branch.getD "") ++ "-" ++ intRepr hmac_timestamp ++
                      "-" ++ intRepr e
                  else
                    sanitizeBranch (req.branch.getD "") ++ "-local-" ++ intRepr e,
                build_url := req.build.getD "", remote := remote_build,
                commit := req.commit.getD "" } := by
  unfold parse_request
  simp [hb, hu]

/-! ## C1: freshness of the issuance timestamp -/

/-- C1 counterexample: the claim says a timestamp more than 15 minutes in the
future is rejected as expired, but at clock 1000 the request stamped 1960
(16 minutes ahead) is not rejected with the expiry error — the signed delta
utc - ts is negative and never exceeds the 15-minute bound. -/
theorem c1_counterexample :
    ¬ check_hmac_request cfg0 1000 reqFuture =
        .error (.forbidden "HMAC timestamp is outside of the valid range") := by
  rw [check_hmac_request_eq cfg0 1000 reqFuture "sig" 1960 rfl (by decide) (by decide)]
  rw [if_neg (by decide : ¬ (1960 : Int) = 0)]
  rw [if_neg (by norm_num : ¬ (900 : ℚ) < 1000 - ((1960 : Int) : ℚ))]
  rw [if_neg (by decide : ¬ reqFuture.build_hash.getD "" = "")]
  cases h : verify_hmac cfg0 reqFuture.path 1960 "sig" (reqFuture.build_hash.getD "") <;>
    simp [h]

/-- C1 amended: with the signature header present and a nonzero numeric
timestamp t, the authenticator rejects with the expiry error exactly when the
current UTC time exceeds t by more than 15 minutes (900 seconds); a timestamp
exactly at the boundary is accepted, and a future timestamp is never rejected
as expired, however far ahead it lies. -/
theorem check_hmac_request_freshness (cfg : Config) (now : ℚ) (req : Request) (d : String)
    (t : Int) (hd : req.zeekHmac = some d) (hne : d ≠ "")
    (ht : intOfTimestampHeader req.zeekHmacTimestamp = .ok t) (ht0 : t ≠ 0) :
    check_hmac_request cfg now req =
        .error (.forbidden "HMAC timestamp is outside of the valid range")
      ↔ (900 : ℚ) < now - (t : ℚ) := by
  rw [check_hmac_request_eq cfg now req d t hd hne ht, if_neg ht0]
  constructor
  · intro h
    by_contra hlt
    rw [if_neg hlt] at h
    split_ifs at h <;> simp_all
  · intro h
    rw [if_pos h]

/-- C1 witness: at clock 2000 the request stamped 1000 (1100 seconds in the
past) is rejected as expired. -/
theorem check_hmac_request_freshness_witness :
    check_hmac_request cfg0 2000 baseReq =
        .error (.forbidden "HMAC timestamp is outside of the valid range")
      ↔ (900 : ℚ) < 2000 - ((1000 : Int) : ℚ) :=
  check_hmac_request_freshness cfg0 2000 baseReq "sig" 1000 rfl (by decide) (by decide)
    (by decide)

/-! ## C2: missing credentials -/

/-- C2 counterexample: a remote request missing the caller-supplied content
hash is rejected with a BadRequest, which is not an access-denied (Forbidden)
rejection, while the spec classes all three missing values as AuthMissing
access-denied rejections. -/
theorem c2_counterexample :
    check_hmac_request cfg0 0 reqNoHash = .error (.badRequest "Build hash argument required")
  ∧ Err.isForbidden (.badRequest "Build hash argument required") = false := by
  constructor
  · rw [check_hmac_request_eq cfg0 0 reqNoHash "sig" 1 rfl (by decide) (by decide),
      if_neg (by decide : ¬ (1 : Int) = 0),
      if_neg (by norm_num : ¬ (900 : ℚ) < 0 - ((1 : Int) : ℚ)),
      if_pos (by decide : reqNoHash.build_hash.getD "" = "")]
  · decide

/-- C2 amended: a missing (or empty) signature header and a missing (or zero)
timestamp each cause their own Forbidden missing-credential rejection; a
missing content hash causes a BadRequest rejection; and all three rejections
are distinct from the Forbidden rejection for a failed signature
verification. -/
theorem check_hmac_request_missing (cfg : Config) (now : ℚ) (req : Request) :
    ((req.zeekHmac = none ∨ req.zeekHmac = some "") →
        check_hmac_request cfg now req = .error (.forbidden "HMAC header missing from request"))
  ∧ (∀ d, req.zeekHmac = some d → d ≠ "" →
        intOfTimestampHeader req.zeekHmacTimestamp = .ok 0 →
        check_hmac_request cfg now req =
          .error (.forbidden "HMAC timestamp missing from request"))
  ∧ (∀ d t, req.zeekHmac = some d → d ≠ "" →
        intOfTimestampHeader req.zeekHmacTimestamp = .ok t → t ≠ 0 →
        ¬ (900 : ℚ) < now - (t : ℚ) → req.build_hash.getD "" = "" →
        check_hmac_request cfg now req = .error (.badRequest "Build hash argument required"))
  ∧ ((Err.forbidden "HMAC header missing from request" ≠ Err.forbidden "HMAC validation failed")
      ∧ (Err.forbidden "HMAC timestamp missing from request" ≠
          Err.forbidden "HMAC validation failed")
      ∧ (Err.badRequest "Build hash argument required" ≠ Err.forbidden "HMAC validation failed")
      ∧ Err.isForbidden (.forbidden "HMAC header missing from request") = true
      ∧ Err.isForbidden (.forbidden "HMAC timestamp missing from request") = true) := by
  refine ⟨?_, ?_, ?_, by decide⟩
  · intro h
    unfold check_hmac_request
    rcases h with h | h
    · rw [h]
    · rw [h]; simp
  · intro d hd hne ht
    rw [check_hmac_request_eq cfg now req d 0 hd hne ht]
    simp
  · intro d t hd hne ht ht0 hfresh hhash
    rw [check_hmac_request_eq cfg now req d t hd hne ht, if_neg ht0, if_neg hfresh,
      if_pos hhash]

/-- C2 witness: the missing-header and missing-content-hash rejections at
concrete requests. -/
theorem check_hmac_request_missing_witness :
    check_hmac_request cfg0 0 reqSemiRemote =
        .error (.forbidden "HMAC header missing from request")
  ∧ check_hmac_request cfg0 0 reqNoHash = .error (.badRequest "Build hash argument required") :=
  ⟨(check_hmac_request_missing cfg0 0 reqSemiRemote).1 (Or.inl rfl),
   (check_hmac_request_missing cfg0 0 reqNoHash).2.2.1 "sig" 1 rfl (by decide) (by decide)
     (by decide) (by norm_num) (by decide)⟩

/-! ## C6: the signature check -/

/-- C6: with credentials present and a fresh timestamp, the authenticator
succeeds exactly when the supplied digest equals the hex HMAC-SHA256 digest,
keyed with the server-held secret, of the canonical message
path-timestamp-contenthash-newline, and rejects with the validation-failed
Forbidden error exactly when it does not. -/
theorem check_hmac_request_signature (cfg : Config) (now : ℚ) (req : Request) (d : String)
    (t : Int) (hd : req.zeekHmac = some d) (hne : d ≠ "")
    (ht : intOfTimestampHeader req.zeekHmacTimestamp = .ok t) (ht0 : t ≠ 0)
    (hfresh : ¬ (900 : ℚ) < now - (t : ℚ)) (hhash : req.build_hash.getD "" ≠ "") :
    (check_hmac_request cfg now req = .ok () ↔
        d = hexdigest (hmacSha256 (strBytes cfg.hmac_key)
          (strBytes (req.path ++ "-" ++ intRepr t ++ "-" ++ req.build_hash.getD "" ++ "\n"))))
  ∧ (check_hmac_request cfg now req = .error (.forbidden "HMAC validation failed") ↔
        ¬ d = hexdigest (hmacSha256 (strBytes cfg.hmac_key)
          (strBytes (req.path ++ "-" ++ intRepr t ++ "-" ++ req.build_hash.getD "" ++ "\n")))) := by
  rw [check_hmac_request_eq cfg now req d t hd hne ht, if_neg ht0, if_neg hfresh,
    if_neg hhash]
  unfold verify_hmac
  have hbeq : (hexdigest (hmacSha256 (strBytes cfg.hmac_key)
      (strBytes (req.path ++ "-" ++ intRepr t ++ "-" ++ req.build_hash.getD "" ++ "\n"))) == d)
        = true
      ↔ d = hexdigest (hmacSha256 (strBytes cfg.hmac_key)
          (strBytes (req.path ++ "-" ++ intRepr t ++ "-" ++ req.build_hash.getD "" ++ "\n"))) := by
    rw [beq_iff_eq]
    exact eq_comm
  by_cases hv : d = hexdigest (hmacSha256 (strBytes cfg.hmac_key)
      (strBytes (req.path ++ "-" ++ intRepr t ++ "-" ++ req.build_hash.getD "" ++ "\n")))
  · rw [if_pos (hbeq.mpr hv)]
    simp [hv]
  · rw [if_neg (fun hh => hv (hbeq.mp hh))]
    simp [hv]

/-- C6 witness: the signature equivalence instantiated at a concrete fresh
request. -/
theorem check_hmac_request_signature_witness :
    (check_hmac_request cfg0 1000 baseReq = .ok () ↔
        "sig" = hexdigest (hmacSha256 (strBytes cfg0.hmac_key)
          (strBytes (baseReq.path ++ "-" ++ intRepr 1000 ++ "-" ++
            baseReq.build_hash.getD "" ++ "\n"))))
  ∧ (check_hmac_request cfg0 1000 baseReq = .error (.forbidden "HMAC validation failed") ↔
        ¬ "sig" = hexdigest (hmacSha256 (strBytes cfg0.hmac_key)
          (strBytes (baseReq.path ++ "-" ++ intRepr 1000 ++ "-" ++
            baseReq.build_hash.getD "" ++ "\n")))) :=
  check_hmac_request_signature cfg0 1000 baseReq "sig" 1000 rfl (by decide) (by decide)
    (by decide) (by norm_num) (by decide)

/-! ## Inversion of a successful admission -/

theorem parse_request_ok_inv (cfg : Config) (g : String → Bool) (now : ℚ) (e : Int)
    (req : Request) (v : ReqVals) (h : parse_request cfg g now e req = .ok v) :
    ∃ t rb, intOfTimestampHeader req.zeekHmacTimestamp = .ok t
      ∧ ((rb = true ∧ is_allowed_build_url cfg (req.build.getD "") = true
            ∧ check_hmac_request cfg now req = .ok ())
         ∨ (rb = false ∧ is_allowed_build_url cfg (req.build.getD "") = false
            ∧ (strStartsWith (req.build.getD "") "file://" &&
                (req.remote_addr == "127.0.0.1")) = true))
      ∧ (req.branch.getD "").data.contains ';' = false
      ∧ g (req.branch.getD "") = true
      ∧ req.branch.getD "" ≠ ""
      ∧ req.build.getD "" ≠ ""
      ∧ v = { build_hash := req.build_hash.getD "",
              original_branch := sanitizeBranch (req.branch.getD ""),
              normalized_branch :=
                if rb then
                  sanitizeBranch (req.branch.getD "") ++ "-" ++ intRepr t ++ "-" ++ intRepr e
                else
                  sanitizeBranch (req.branch.getD "") ++ "-local-" ++ intRepr e,
              build_url := req.build.getD "", remote := rb,
              commit := req.commit.getD "" } := by
  by_cases hbranch : req.branch.getD "" = ""
  · unfold parse_request at h
    rw [if_pos hbranch] at h
    exact absurd h (by simp)
  by_cases hbuild : req.build.getD "" = ""
  · unfold parse_request at h
    rw [if_neg hbranch] at h
    rw [if_pos hbuild] at h
    exact absurd h (by simp)
  rw [parse_request_eq cfg g now e req hbranch hbuild] at h
  cases hcls : (if is_allowed_build_url cfg (req.build.getD "") then
      (check_hmac_request cfg now req).map (fun _ => true)
    else if strStartsWith (req.build.getD "") "file://" && (req.remote_addr == "127.0.0.1") then
      .ok false
    else
      .error (.badRequest "Invalid build URL")) with
  | error er =>
    rw [hcls] at h
    exact absurd h (by simp [Except.bind])
  | ok rb =>
    rw [hcls] at h
    simp only [Except.bind] at h
    by_cases hsemi : (req.branch.getD "").data.contains ';' = true
    · rw [if_pos hsemi] at h
      exact absurd h (by simp)
    rw [if_neg hsemi] at h
    by_cases hg : (!g (req.branch.getD "")) = true
    · rw [if_pos hg] at h
      exact absurd h (by simp)
    rw [if_neg hg] at h
    cases ht : intOfTimestampHeader req.zeekHmacTimestamp with
    | error er =>
      rw [ht] at h
      exact absurd h (by simp [Except.bind])
    | ok t =>
      rw [ht] at h
      simp only [Except.bind, Except.ok.injEq] at h
      refine ⟨t, rb, rfl, ?_, ?_, ?_, hbranch, hbuild, h.symm⟩
      · by_cases ha : is_allowed_build_url cfg (req.build.getD "") = true
        · rw [if_pos ha] at hcls
          cases hc : check_hmac_request cfg now req with
          | error er =>
            rw [hc] at hcls
            exact absurd hcls (by simp [Except.map])
          | ok u =>
            rw [hc] at hcls
            simp only [Except.map, Except.ok.injEq] at hcls
            exact Or.inl ⟨hcls.symm, ha, by cases u; rfl⟩
        · rw [if_neg ha] at hcls
          by_cases hf : (strStartsWith (req.build.getD "") "file://" &&
              (req.remote_addr == "127.0.0.1")) = true
          · rw [if_pos hf] at hcls
            simp only [Except.ok.injEq] at hcls
            exact Or.inr ⟨hcls.symm, Bool.not_eq_true _ ▸ (by simpa using ha), hf⟩
          · rw [if_neg hf] at hcls
            exact absurd hcls (by simp)
      · exact Bool.not_eq_true _ ▸ (by simpa using hsemi)
      · have := Bool.not_eq_true _ ▸ hg
        simp at this
        exact this

/-! ## C5: classification of the build reference -/

/-- C5: with branch and build present, the gateway classifies the build URL
exactly three ways: an allow-listed prefix makes the request remote and
subject to the full authenticator (an authenticator rejection propagates
unchanged, a success marks the job remote); otherwise a file URL from the
loopback caller address is local, skips the authenticator (the result does
not depend on the signature header) and marks the job local; and in every
other case the request is rejected as an invalid build URL. -/
theorem parse_request_classification (cfg : Config) (g : String → Bool) (now : ℚ) (e : Int)
    (req : Request) (hb : req.branch.getD "" ≠ "") (hu : req.build.getD "" ≠ "") :
    (is_allowed_build_url cfg (req.build.getD "") = true →
        (∀ er, check_hmac_request cfg now req = .error er →
          parse_request cfg g now e req = .error er)
      ∧ (∀ v, parse_request cfg g now e req = .ok v → v.remote = true))
  ∧ (is_allowed_build_url cfg (req.build.getD "") = false →
      (strStartsWith (req.build.getD "") "file://" && (req.remote_addr == "127.0.0.1")) = true →
        (∀ v, parse_request cfg g now e req = .ok v → v.remote = false)
      ∧ (∀ o, parse_request cfg g now e { req with zeekHmac := o } =
          parse_request cfg g now e req))
  ∧ (is_allowed_build_url cfg (req.build.getD "") = false →
      (strStartsWith (req.build.getD "") "file://" && (req.remote_addr == "127.0.0.1")) = false →
      parse_request cfg g now e req = .error (.badRequest "Invalid build URL")) := by
  refine ⟨fun ha => ⟨?_, ?_⟩, fun ha hf => ⟨?_, ?_⟩, fun ha hf => ?_⟩
  · intro er her
    rw [parse_request_eq cfg g now e req hb hu, if_pos ha, her]
    simp [Except.map, Except.bind]
  · intro v hv
    obtain ⟨t, rb, ht, hcase, _, _, _, _, hveq⟩ := parse_request_ok_inv cfg g now e req v hv
    rcases hcase with ⟨hrb, _, _⟩ | ⟨hrb, ha2, _⟩
    · rw [hveq]
      exact hrb
    · rw [ha] at ha2
      exact absurd ha2 (by decide)
  · intro v hv
    obtain ⟨t, rb, ht, hcase, _, _, _, _, hveq⟩ := parse_request_ok_inv cfg g now e req v hv
    rcases hcase with ⟨hrb, ha2, _⟩ | ⟨hrb, _, _⟩
    · rw [ha] at ha2
      exact absurd ha2 (by decide)
    · rw [hveq]
      exact hrb
  · intro o
    rw [parse_request_eq cfg g now e { req with zeekHmac := o } hb hu,
      parse_request_eq cfg g now e req hb hu]
    dsimp only
    simp [ha, hf]
  · rw [parse_request_eq cfg g now e req hb hu]
    rw [if_neg (by simp [ha]), if_neg (by simp [hf])]
    simp [Except.bind]

/-- C5 witness: a request whose build URL is neither allow-listed nor a
loopback file reference is rejected as an invalid build URL. -/
theorem parse_request_classification_witness :
    parse_request cfg0 gitAll 0 0 reqBadUrl = .error (.badRequest "Invalid build URL") :=
  (parse_request_classification cfg0 gitAll 0 0 reqBadUrl (by decide) (by decide)).2.2
    (by decide) (by decide)

/-! ## C10: authentication is evaluated before branch validation -/

/-- C10: for an allow-listed (remote) request, an authenticator rejection is
the rejection of the whole admission, whatever the branch argument holds —
the semicolon and reference-format checks are never consulted. -/
theorem parse_request_auth_first (cfg : Config) (g : String → Bool) (now : ℚ) (e : Int)
    (req : Request) (er : Err)
    (hb : req.branch.getD "" ≠ "") (hu : req.build.getD "" ≠ "")
    (ha : is_allowed_build_url cfg (req.build.getD "") = true)
    (he : check_hmac_request cfg now req = .error er) :
    parse_request cfg g now e req = .error er := by
  rw [parse_request_eq cfg g now e req hb hu, if_pos ha, he]
  simp [Except.map, Except.bind]

/-- C10 witness: a remote request with a semicolon branch and no signature
header is rejected with the authentication error, not the branch error. -/
theorem parse_request_auth_first_witness :
    parse_request cfg0 gitAll 0 0 reqSemiRemote =
      .error (.forbidden "HMAC header missing from request") :=
  parse_request_auth_first cfg0 gitAll 0 0 reqSemiRemote
    (.forbidden "HMAC header missing from request") (by decide) (by decide) (by decide)
    (by decide)

/-! ## C9: a non-numeric timestamp header raises ValueError -/

/-- C9: a request with an allow-listed build URL, a signature header and a
non-numeric Zeek-HMAC-Timestamp header makes admission fail with the
uncaught int() ValueError rather than any BadRequest or Forbidden
rejection. -/
theorem parse_request_valueError :
    parse_request cfg0 gitAll 0 0 reqBadTs = .error (.valueError "friday")
  ∧ (∀ m, Err.valueError "friday" ≠ Err.badRequest m)
  ∧ (∀ m, Err.valueError "friday" ≠ Err.forbidden m) := by
  refine ⟨?_, ?_, ?_⟩
  case refine_2 =>
    intro m h
    cases h
  case refine_3 =>
    intro m h
    cases h
  rw [parse_request_eq cfg0 gitAll 0 0 reqBadTs (by decide) (by decide),
    if_pos (by decide : is_allowed_build_url cfg0 (reqBadTs.build.getD "") = true),
    check_hmac_request_ts_error cfg0 0 reqBadTs "sig" (.valueError "friday") rfl (by decide)
      (by decide)]
  simp [Except.map, Except.bind]

/-! ## C7: semicolon branches -/

/-- C7 counterexample: a remote request with a semicolon branch but no
signature header is rejected with the missing-credentials Forbidden error,
not with the invalid-branch BadRequest the claim names. -/
theorem c7_counterexample :
    parse_request cfg0 gitAll 0 0 reqSemiRemote =
        .error (.forbidden "HMAC header missing from request")
  ∧ (reqSemiRemote.branch.getD "").data.contains ';' = true
  ∧ Err.forbidden "HMAC header missing from request" ≠
      Err.badRequest "Invalid branch name" := by
  refine ⟨by decide, by decide, by decide⟩

/-- C7 amended: no request with a semicolon branch is ever admitted, and when
such a request passes classification (and, for remote requests, the
authenticator) the rejection is the invalid-branch BadRequest; an earlier
classification or authentication failure reports its own error instead. -/
theorem parse_request_semicolon (cfg : Config) (g : String → Bool) (now : ℚ) (e : Int)
    (req : Request) (hsemi : (req.branch.getD "").data.contains ';' = true) :
    (∀ v, parse_request cfg g now e req ≠ .ok v)
  ∧ (req.branch.getD "" ≠ "" → req.build.getD "" ≠ "" →
      ((is_allowed_build_url cfg (req.build.getD "") = true
          ∧ check_hmac_request cfg now req = .ok ())
        ∨ (is_allowed_build_url cfg (req.build.getD "") = false
          ∧ (strStartsWith (req.build.getD "") "file://" &&
              (req.remote_addr == "127.0.0.1")) = true)) →
      parse_request cfg g now e req = .error (.badRequest "Invalid branch name")) := by
  constructor
  · intro v hv
    obtain ⟨t, rb, ht, hcase, hsemi0, _⟩ := parse_request_ok_inv cfg g now e req v hv
    rw [hsemi] at hsemi0
    exact absurd hsemi0 (by decide)
  · intro hb hu hcls
    rw [parse_request_eq cfg g now e req hb hu]
    rcases hcls with ⟨ha, hok⟩ | ⟨ha, hf⟩
    · rw [if_pos ha, hok]
      simp only [Except.map, Except.bind]
      rw [if_pos hsemi]
    · rw [if_neg (by simp [ha]), if_pos hf]
      simp only [Except.bind]
      rw [if_pos hsemi]

/-- C7 witness: a loopback file request with a semicolon branch is rejected
with the invalid-branch error. -/
theorem parse_request_semicolon_witness :
    parse_request cfg0 gitAll 0 0 reqSemiLocal = .error (.badRequest "Invalid branch name") :=
  (parse_request_semicolon cfg0 gitAll 0 0 reqSemiLocal (by decide)).2 (by decide) (by decide)
    (Or.inr ⟨by decide, by decide⟩)

/-! ## C3: uniqueness of the normalized branch -/

/-- C3 counterexample: two distinct admitted requests carrying the same raw
branch name, admitted at the same clock second, receive the same
normalized_branch — the uniqueness suffix is only as fine as the second. -/
theorem c3_counterexample :
    reqLocalA ≠ reqLocalB
  ∧ reqLocalA.branch = reqLocalB.branch
  ∧ (parse_request cfg0 gitAll 100 100 reqLocalA).map ReqVals.normalized_branch =
      .ok "abc-local-100"
  ∧ (parse_request cfg0 gitAll 100 100 reqLocalB).map ReqVals.normalized_branch =
      .ok "abc-local-100" :=
  ⟨by decide, by decide, by decide, by decide⟩

theorem intRepr_nonneg (e : Int) (he : 0 ≤ e) : intRepr e = natRepr e.toNat := by
  cases e with
  | ofNat n => rfl
  | negSucc n => exact absurd he (by simp)

theorem digits_sep_inj :
    ∀ (l1 l2 r1 r2 : List Char),
      (∀ c ∈ l1, 48 ≤ c.toNat ∧ c.toNat ≤ 57) → (∀ c ∈ l2, 48 ≤ c.toNat ∧ c.toNat ≤ 57) →
      l1 ++ '-' :: r1 = l2 ++ '-' :: r2 → l1 = l2 := by
  intro l1
  induction l1 with
  | nil =>
    intro l2 r1 r2 _ h2 h
    cases l2 with
    | nil => rfl
    | cons c cs =>
      simp only [List.nil_append, List.cons_append] at h
      injection h with hc _
      have hd := h2 c (by simp)
      rw [← hc] at hd
      exact absurd hd (by decide)
  | cons a l ih =>
    intro l2 r1 r2 h1 h2 h
    cases l2 with
    | nil =>
      simp only [List.cons_append, List.nil_append] at h
      injection h with hc _
      have hd := h1 a (by simp)
      rw [hc] at hd
      exact absurd hd (by decide)
    | cons b l2t =>
      simp only [List.cons_append] at h
      injection h with hc hrest
      rw [hc, ih l2t r1 r2 (fun c hcm => h1 c (by simp [hcm]))
        (fun c hcm => h2 c (by simp [hcm])) hrest]

theorem normalized_branch_suffix (cfg : Config) (g : String → Bool) (now : ℚ) (e : Int)
    (req : Request) (v : ReqVals) (he : 0 ≤ e)
    (h : parse_request cfg g now e req = .ok v) :
    ∃ p : List Char, v.normalized_branch.data = p ++ '-' :: (natRepr e.toNat).data := by
  obtain ⟨t, rb, _, _, _, _, _, _, hveq⟩ := parse_request_ok_inv cfg g now e req v h
  subst hveq
  cases rb with
  | true =>
    refine ⟨(sanitizeBranch (req.branch.getD "")).data ++ '-' :: (intRepr t).data, ?_⟩
    simp [String.data_append, intRepr_nonneg e he, List.append_assoc,
      show ("-" : String).data = ['-'] from rfl]
  | false =>
    refine ⟨(sanitizeBranch (req.branch.getD "")).data ++ ['-', 'l', 'o', 'c', 'a', 'l'], ?_⟩
    simp [String.data_append, intRepr_nonneg e he, List.append_assoc,
      show ("-local-" : String).data = ['-', 'l', 'o', 'c', 'a', 'l', '-'] from rfl]

/-- C3 amended: two admitted requests receive distinct normalized_branch
values whenever their integer admission times differ; admissions within the
same clock second (with, for remote requests, equal issuance timestamps) can
collide, as the counterexample shows. -/
theorem parse_request_distinct_times (cfg1 cfg2 : Config) (g1 g2 : String → Bool)
    (now1 now2 : ℚ) (e1 e2 : Int) (req1 req2 : Request) (v1 v2 : ReqVals)
    (h1 : parse_request cfg1 g1 now1 e1 req1 = .ok v1)
    (h2 : parse_request cfg2 g2 now2 e2 req2 = .ok v2)
    (he1 : 0 ≤ e1) (he2 : 0 ≤ e2) (hne : e1 ≠ e2) :
    v1.normalized_branch ≠ v2.normalized_branch := by
  obtain ⟨p1, hp1⟩ := normalized_branch_suffix cfg1 g1 now1 e1 req1 v1 he1 h1
  obtain ⟨p2, hp2⟩ := normalized_branch_suffix cfg2 g2 now2 e2 req2 v2 he2 h2
  intro heq
  have hdata := congrArg String.data heq
  rw [hp1, hp2] at hdata
  have hrev := congrArg List.reverse hdata
  simp only [List.reverse_append, List.reverse_cons, List.append_assoc,
    List.singleton_append] at hrev
  have hd := digits_sep_inj _ _ _ _
    (fun c hcm => mem_natRepr_digit (List.mem_reverse.mp hcm))
    (fun c hcm => mem_natRepr_digit (List.mem_reverse.mp hcm)) hrev
  have hdd : (natRepr e1.toNat).data = (natRepr e2.toNat).data := by
    have := congrArg List.reverse hd
    simpa using this
  have hrepr : natRepr e1.toNat = natRepr e2.toNat := String.ext hdd
  have := natRepr_inj hrepr
  omega

/-- C3 witness: the same local request admitted at seconds 100 and 101 gets
two distinct normalized branches. -/
theorem parse_request_distinct_times_witness :
    (valsLocalA 100).normalized_branch ≠ (valsLocalA 101).normalized_branch :=
  parse_request_distinct_times cfg0 cfg0 gitAll gitAll 100 101 100 101 reqLocalA reqLocalA
    (valsLocalA 100) (valsLocalA 101) (by decide) (by decide) (by decide) (by decide)
    (by decide)

/-! ## C4: the sanitized branch -/

/-- C4 counterexample: the admitted branch consisting of the dotted capital I
(code point 304) sanitizes, as in Python, to i followed by the combining dot
above (code point 775), and that combining mark is not an alphanumeric
character — so the sanitized branch does not consist solely of lowercase
alphanumeric characters. -/
theorem c4_counterexample :
    (parse_request cfg0 gitAll 100 100 reqUni).map ReqVals.original_branch =
      .ok ⟨[Char.ofNat 105, Char.ofNat 775]⟩
  ∧ pyIsAlnum (Char.ofNat 304) = true
  ∧ pyIsAlnum (Char.ofNat 775) = false :=
  ⟨by decide, by decide, by decide⟩

theorem pyIsAlnum_lt (c : Char) (h : pyIsAlnum c = true) : c.toNat < 305 := by
  unfold pyIsAlnum at h
  simp only [Bool.or_eq_true, Bool.and_eq_true, decide_eq_true_eq] at h
  rcases h with ((((((h | h) | h) | h) | h) | h) | h) <;> omega

set_option maxRecDepth 4096 in
theorem pyCharLower_not_upper_aux :
    ∀ n, n < 305 → pyIsAlnum (Char.ofNat n) = true →
      ∀ c ∈ pyCharLower (Char.ofNat n), isUpperInFragment c = false := by decide

theorem pyCharLower_not_upper (c0 : Char) (h : pyIsAlnum c0 = true) :
    ∀ c ∈ pyCharLower c0, isUpperInFragment c = false := by
  have hlt := pyIsAlnum_lt c0 h
  have key := pyCharLower_not_upper_aux c0.toNat hlt
    (by rw [Char.ofNat_toNat]; exact h)
  rw [Char.ofNat_toNat] at key
  exact key

/-- C4 amended: an admitted request's original_branch is exactly the raw
branch with every non-alphanumeric character dropped and the remainder
lowercased; every character of it arises from lowercasing a kept
alphanumeric character, and no uppercase letter survives — but the result
need not consist solely of lowercase alphanumerics, because lowering the
dotted capital I introduces a non-alphanumeric combining mark. -/
theorem parse_request_original_branch (cfg : Config) (g : String → Bool) (now : ℚ) (e : Int)
    (req : Request) (v : ReqVals) (h : parse_request cfg g now e req = .ok v) :
    v.original_branch = pyStrLower ⟨(req.branch.getD "").data.filter pyIsAlnum⟩
  ∧ (∀ c ∈ v.original_branch.data, ∃ c0, pyIsAlnum c0 = true ∧ c ∈ pyCharLower c0)
  ∧ v.original_branch.data.all (fun c => !isUpperInFragment c) = true := by
  obtain ⟨t, rb, _, _, _, _, _, _, hveq⟩ := parse_request_ok_inv cfg g now e req v h
  subst hveq
  refine ⟨rfl, ?_, ?_⟩
  · intro c hc
    have hc2 : c ∈ (((req.branch.getD "").data.filter pyIsAlnum).map pyCharLower).flatten := hc
    obtain ⟨l, hl, hcl⟩ := List.mem_flatten.mp hc2
    obtain ⟨c0, hc0, hceq⟩ := List.mem_map.mp hl
    exact ⟨c0, (List.mem_filter.mp hc0).2, hceq ▸ hcl⟩
  · rw [List.all_eq_true]
    intro c hc
    have hc2 : c ∈ (((req.branch.getD "").data.filter pyIsAlnum).map pyCharLower).flatten := hc
    obtain ⟨l, hl, hcl⟩ := List.mem_flatten.mp hc2
    obtain ⟨c0, hc0, hceq⟩ := List.mem_map.mp hl
    rw [Bool.not_eq_true']
    exact pyCharLower_not_upper c0 (List.mem_filter.mp hc0).2 c (hceq ▸ hcl)

/-- C4 witness: the sanitization facts instantiated at a concrete admitted
request. -/
theorem parse_request_original_branch_witness :
    (valsLocalA 100).original_branch =
        pyStrLower ⟨(reqLocalA.branch.getD "").data.filter pyIsAlnum⟩
  ∧ (valsLocalA 100).original_branch.data.all (fun c => !isUpperInFragment c) = true :=
  ⟨(parse_request_original_branch cfg0 gitAll 100 100 reqLocalA (valsLocalA 100)
      (by decide)).1,
   (parse_request_original_branch cfg0 gitAll 100 100 reqLocalA (valsLocalA 100)
      (by decide)).2.2⟩

/-! ## C8: the reference parsing fixture -/

/-- C8: parsing the reference raw output with one marker line yields exactly
one result, at discovery position 1, whose third field 1.10 is the user time
and fourth field 0.02 the system time; parse_from with run index 1 returns
the same record. -/
theorem zeek_test_result_fixture :
    parseResults "X\nBENCHMARK_TIMING=1.12;42;1.10;0.02\nX" =
      [{ run_index := 1, wall_time := some (28/25), max_memory := some 42,
         user_time := some (11/10), system_time := some (1/50) }]
  ∧ ZeekTestResult.parse_from 1 "X\nBENCHMARK_TIMING=1.12;42;1.10;0.02\nX" =
      some { run_index := 1, wall_time := some (28/25), max_memory := some 42,
             user_time := some (11/10), system_time := some (1/50) }
  ∧ (11/10 : ℚ) = 1.10 ∧ (1/50 : ℚ) = 0.02 := by
  have hw : parseFloatChars ['1', '.', '1', '2'] = some (28/25) := by
    have h : parseFloatChars ['1', '.', '1', '2'] =
        some ((deval ['1'] : ℚ) + (deval ['1', '2'] : ℚ) / (10 : ℚ) ^ (['1', '2'].length)) := rfl
    rw [h, show deval ['1'] = 1 from by decide, show deval ['1', '2'] = 12 from by decide]
    norm_num
  have hm : parseFloatChars ['4', '2'] = some 42 := by
    have h : parseFloatChars ['4', '2'] = some ((deval ['4', '2'] : ℚ)) := rfl
    rw [h, show deval ['4', '2'] = 42 from by decide]
    norm_num
  have hu : parseFloatChars ['1', '.', '1', '0'] = some (11/10) := by
    have h : parseFloatChars ['1', '.', '1', '0'] =
        some ((deval ['1'] : ℚ) + (deval ['1', '0'] : ℚ) / (10 : ℚ) ^ (['1', '0'].length)) := rfl
    rw [h, show deval ['1'] = 1 from by decide, show deval ['1', '0'] = 10 from by decide]
    norm_num
  have hs : parseFloatChars ['0', '.', '0', '2'] = some (1/50) := by
    have h : parseFloatChars ['0', '.', '0', '2'] =
        some ((deval ['0'] : ℚ) + (deval ['0', '2'] : ℚ) / (10 : ℚ) ^ (['0', '2'].length)) := rfl
    rw [h, show deval ['0'] = 0 from by decide, show deval ['0', '2'] = 2 from by decide]
    norm_num
  refine ⟨?_, ?_, by norm_num, by norm_num⟩
  · have hmain : parseResults "X\nBENCHMARK_TIMING=1.12;42;1.10;0.02\nX" =
        [{ run_index := 1, wall_time := parseFloatChars ['1', '.', '1', '2'],
           max_memory := parseFloatChars ['4', '2'],
           user_time := parseFloatChars ['1', '.', '1', '0'],
           system_time := parseFloatChars ['0', '.', '0', '2'] }] := rfl
    rw [hmain, hw, hm, hu, hs]
  · have hmain : ZeekTestResult.parse_from 1 "X\nBENCHMARK_TIMING=1.12;42;1.10;0.02\nX" =
        some { run_index := 1, wall_time := parseFloatChars ['1', '.', '1', '2'],
               max_memory := parseFloatChars ['4', '2'],
               user_time := parseFloatChars ['1', '.', '1', '0'],
               system_time := parseFloatChars ['0', '.', '0', '2'] } := rfl
    rw [hmain, hw, hm, hu, hs]
